import Mathlib

/-!
Verification of the StagPy simulation-archive indexer and lazy-access cache.

The development shallowly embeds the archive components (step and snapshot
indexes, binary record reader, lazy orchestrator, unit scaler) together with
the consumers found in `stagpy/commands.py` and the environment toggles of
`stagpy/__init__.py`, and proves the documented properties about them.
-/

set_option autoImplicit false

namespace StagPy

/-- The error taxonomy of the archive (spec section 7). -/
inductive StagpyError where
  | indexNotFound (id : Nat)
  | selectorOutOfRange
  | emptyArchive
  | corruptRecord
  | unknownDimension (symbol : String)
  deriving Repr, DecidableEq

/-- A step/snapshot selector: an absolute non-negative id, or a relative
position counted from the end of the known sequence (`fromEnd 0` is "last",
`fromEnd 1` is "second to last"). -/
inductive Selector where
  | absolute (id : Nat)
  | fromEnd (k : Nat)
  deriving Repr, DecidableEq

/-- Modelled from the spec: `resolve` of the Step/Snapshot Index (the index
implementation is not among the provided modules).  `ids` is the ascending
sequence of known ids; an absolute selector fails with `IndexNotFound` when
absent, a relative selector beyond the number of known ids fails with
`SelectorOutOfRange`. -/
def resolve (ids : List Nat) : Selector → Except StagpyError Nat
  | .absolute id => if ids.contains id then .ok id else .error (.indexNotFound id)
  | .fromEnd k =>
      match ids.reverse[k]? with
      | some i => .ok i
      | none => .error .selectorOutOfRange

/-- Modelled from the spec: the Snapshot Index, recording for each known
`isnap` the `istep` it belongs to (the index implementation is not among the
provided modules). -/
structure SnapIndex where
  snaps : List (Nat × Nat)
  deriving Repr, DecidableEq

/-- Modelled from the spec: `step_of` of the Snapshot Index; fails with
`IndexNotFound` if `isnap` is unknown. -/
def step_of (idx : SnapIndex) (isnap : Nat) : Except StagpyError Nat :=
  match idx.snaps.lookup isnap with
  | some istep => .ok istep
  | none => .error (.indexNotFound isnap)

/-- Modelled from the spec: `snapshot_of` of the Snapshot Index, the reverse
lookup from a step to its snapshot number; most steps return `none`. -/
def snapshot_of (idx : SnapIndex) (istep : Nat) : Option Nat :=
  (idx.snaps.find? (fun p => p.2 == istep)).map Prod.fst

/-- Coordinate-system tag of a parsed geometry header. -/
inductive CoordSystem where
  | cartesianCS
  | cylindricalCS
  | sphericalCS
  deriving Repr, DecidableEq

/-- Modelled from the spec: the `Geometry` parsed from a snapshot header
(axis extents and coordinate-system tag; the parsing module is not among the
provided modules). -/
structure Geom where
  nxtot : Nat
  nytot : Nat
  nztot : Nat
  curv : CoordSystem
  deriving Repr, DecidableEq

/-- Modelled from the spec: the dimensionality predicate `twod_xz` used by
`info_cmd` — the y extent is not greater than one. -/
def Geom.twod_xz (g : Geom) : Bool := g.nytot == 1

/-- Modelled from the spec: the dimensionality predicate `twod_yz` — the x
extent is not greater than one. -/
def Geom.twod_yz (g : Geom) : Bool := g.nxtot == 1

/-- Modelled from the spec: the dimensionality predicate `threed` — both
horizontal extents are greater than one. -/
def Geom.threed (g : Geom) : Bool := !g.twod_xz && !g.twod_yz

/-- Coordinate predicate `cartesian` as read by `info_cmd`. -/
def Geom.cartesian (g : Geom) : Bool := g.curv == .cartesianCS

/-- Coordinate predicate `cylindrical` as read by `info_cmd`. -/
def Geom.cylindrical (g : Geom) : Bool := g.curv == .cylindricalCS

/-- Coordinate predicate `spherical` as read by `info_cmd`. -/
def Geom.spherical (g : Geom) : Bool := g.curv == .sphericalCS

/-- Dimensionality tag of a geometry (spec section 3). -/
inductive DimTag where
  | twodXZ
  | twodYZ
  | threeD
  deriving Repr, DecidableEq

/-- The dimensionality tag derived from which extents are greater than one. -/
def Geom.dimTag (g : Geom) : DimTag :=
  if g.threed then .threeD else if g.twod_xz then .twodXZ else .twodYZ

/-- The grid-dimension display computed by `info_cmd` (commands.py lines
37-42): all three extents for a 3D run, `nxtot x nztot` for XZ, and
`nytot x nztot` otherwise. -/
def dimensionDisplay (g : Geom) : String :=
  if g.threed then
    toString g.nxtot ++ " x " ++ toString g.nytot ++ " x " ++ toString g.nztot
  else if g.twod_xz then
    toString g.nxtot ++ " x " ++ toString g.nztot
  else
    toString g.nytot ++ " x " ++ toString g.nztot

/-- The coordinate-system display computed by `info_cmd` (commands.py lines
43-48): test cartesian, then cylindrical, and treat the rest as spherical. -/
def coordDisplay (g : Geom) : String :=
  if g.cartesian then "Cartesian"
  else if g.cylindrical then "Cylindrical"
  else "Spherical"

/-- The name of a coordinate-system tag, used to state that `info_cmd`'s
branch order agrees with the tag itself. -/
def coordName : CoordSystem → String
  | .cartesianCS => "Cartesian"
  | .cylindricalCS => "Cylindrical"
  | .sphericalCS => "Spherical"

/-- Modelled from the spec: a parsed `StepRecord` — its `istep`, the optional
back-reference to an associated snapshot number, and the row of named
time-series values. -/
structure StepRecord where
  istep : Nat
  isnap : Option Nat
  timeinfo : List (String × Rat)
  deriving Repr, DecidableEq

/-- Modelled from the spec: a raw snapshot field record as laid out on disk —
a `Geometry` header, the number of declared field components, and the flat
payload of samples. -/
structure RawFieldRecord where
  header : Geom
  components : Nat
  payload : List Rat
  deriving Repr, DecidableEq

/-- Modelled from the spec: a parsed `SnapshotRecord` — its `isnap`, the
owning `istep`, the geometry and the field samples. -/
structure SnapshotRecord where
  isnap : Nat
  istep : Nat
  geom : Geom
  fieldValues : List Rat
  deriving Repr, DecidableEq

/-- Modelled from the spec: the Binary Record Reader for snapshot field
records (the reader module is not among the provided modules).  Pure;
validates the declared payload length against
`nxtot * nytot * nztot * components` and fails with `CorruptRecord` on
mismatch. -/
def readFieldRecord (isnap istep : Nat) (raw : RawFieldRecord) :
    Except StagpyError SnapshotRecord :=
  if raw.payload.length =
      raw.header.nxtot * raw.header.nytot * raw.header.nztot * raw.components
  then .ok { isnap := isnap, istep := istep, geom := raw.header,
             fieldValues := raw.payload }
  else .error .corruptRecord

/-- Modelled from the spec: the immutable part of a `Run` built at
archive-open time — the ascending list of known steps, the snapshot index,
and the on-disk content reachable through the Binary Record Reader. -/
structure Archive where
  steps : List Nat
  snapIndex : SnapIndex
  timeData : Nat → List (String × Rat)
  fieldData : Nat → RawFieldRecord

/-- Modelled from the spec: parsing the time-series row of one step through
the Binary Record Reader, annotated with its snapshot number when one
exists. -/
def parseStep (arc : Archive) (istep : Nat) : StepRecord :=
  { istep := istep
    isnap := snapshot_of arc.snapIndex istep
    timeinfo := arc.timeData istep }

/-- Modelled from the spec: the mutable state of a `Run` — the archive-wide
cache, with a parse counter standing for the parse-count probe on the
reader. -/
structure RunState where
  stepCache : List (Nat × StepRecord)
  snapCache : List (Nat × SnapshotRecord)
  parseCount : Nat
  deriving Repr, DecidableEq

/-- The freshly opened run state: empty caches, no parse performed yet. -/
def RunState.empty : RunState :=
  { stepCache := [], snapCache := [], parseCount := 0 }

/-- Modelled from the spec: the cache-fill path of `step()` for an already
resolved `istep` — check cache, on miss parse once, store, return. -/
def stepFetch (arc : Archive) (st : RunState) (istep : Nat) :
    StepRecord × RunState :=
  match st.stepCache.lookup istep with
  | some r => (r, st)
  | none =>
      let r := parseStep arc istep
      (r, { st with stepCache := (istep, r) :: st.stepCache,
                    parseCount := st.parseCount + 1 })

/-- Modelled from the spec: the cache-fill path of `snapshot()` for an
already resolved `isnap` — check cache, on miss parse via the Binary Record
Reader; a failed parse is surfaced and does not touch the cache. -/
def snapFetch (arc : Archive) (st : RunState) (isnap : Nat) :
    Except StagpyError SnapshotRecord × RunState :=
  match st.snapCache.lookup isnap with
  | some r => (.ok r, st)
  | none =>
      match step_of arc.snapIndex isnap with
      | .error e => (.error e, st)
      | .ok istep =>
          match readFieldRecord isnap istep (arc.fieldData isnap) with
          | .error e => (.error e, st)
          | .ok r =>
              (.ok r, { st with snapCache := (isnap, r) :: st.snapCache,
                                parseCount := st.parseCount + 1 })

/-- Modelled from the spec: `walk()` — one entry per known `istep`, in the
order of the step index. -/
def walk (arc : Archive) : List StepRecord :=
  arc.steps.map (parseStep arc)

/-- Modelled from the spec: `last_step()`, a convenience wrapper over the
step index with relative selector "last". -/
def last_step (arc : Archive) : Except StagpyError Nat :=
  resolve arc.steps (.fromEnd 0)

/-- Modelled from the spec: `last_snapshot()`, a convenience wrapper over
the snapshot index with relative selector "last". -/
def last_snapshot (arc : Archive) : Except StagpyError Nat :=
  resolve (arc.snapIndex.snaps.map Prod.fst) (.fromEnd 0)

/-- Modelled from the spec: a registered conversion of the Unit Scaler — the
factor derived from the run parameters and the physical unit label. -/
structure ScaleEntry where
  factor : Rat
  label : String
  deriving Repr, DecidableEq

/-- Modelled from the spec: the Unit Scaler `scale(value, symbol)` (the
scaler module is not among the provided modules).  `"1"` is dimensionless
and returned unchanged with an empty label; any other symbol needs a
registered conversion, otherwise `UnknownDimension`. -/
def scale (scales : List (String × ScaleEntry)) (x : Rat) (symbol : String) :
    Except StagpyError (Rat × String) :=
  if symbol = "1" then .ok (x, "")
  else
    match scales.lookup symbol with
    | some e => .ok (x * e.factor, e.label)
    | none => .error (.unknownDimension symbol)

/-- The row restriction `step.timeinfo.loc[list(conf.info.output)]` performed
by `info_cmd` (commands.py line 56): keep the requested variables, in request
order. -/
def locRow (row : List (String × Rat)) (keys : List String) : List (String × Rat) :=
  keys.filterMap (fun k => (row.lookup k).map (fun v => (k, v)))

/-- The per-variable scaling of `info_cmd` (commands.py lines 60-67): look
the variable up in the TIME catalogue, default to dimension "1" when absent,
keep dimensionless values unchanged with an empty label, and scale the
rest. -/
def scaleVar (time : List (String × String))
    (scales : List (String × ScaleEntry)) (var : String) (val : Rat) :
    Except StagpyError (Rat × String) :=
  let dim := match time.lookup var with
    | some d => d
    | none => "1"
  if dim = "1" then .ok (val, "")
  else scale scales val dim

/-- The scaling loop of `info_cmd` over one restricted series (commands.py
lines 58-74): it operates on a copy of the row, producing a fresh series of
scaled values and unit labels. -/
def scaleSeries (time : List (String × String))
    (scales : List (String × ScaleEntry)) (series : List (String × Rat)) :
    Except StagpyError (List (String × Rat × String)) :=
  series.mapM (fun p => (scaleVar time scales p.1 p.2).map (fun q => (p.1, q)))

/-- The walk loop of `info_cmd` (commands.py lines 50-76) over a list of
steps: fetch each step through the cache, restrict and scale its time-series
row, and thread the run state. -/
def infoWalkGo (arc : Archive) (time : List (String × String))
    (scales : List (String × ScaleEntry)) (outputs : List String) :
    List Nat → RunState →
      Except StagpyError (List (List (String × Rat × String))) × RunState
  | [], st => (.ok [], st)
  | i :: rest, st =>
      let rs := stepFetch arc st i
      match scaleSeries time scales (locRow rs.1.timeinfo outputs) with
      | .error e => (.error e, rs.2)
      | .ok series =>
          let next := infoWalkGo arc time scales outputs rest rs.2
          (next.1.map (fun outs => series :: outs), next.2)

/-- The body of `info_cmd` relevant to the archive: walk all known steps from
a fresh run state, scaling each visited row. -/
def info_cmd (arc : Archive) (time : List (String × String))
    (scales : List (String × ScaleEntry)) (outputs : List String) :
    Except StagpyError (List (List (String × Rat × String))) × RunState :=
  infoWalkGo arc time scales outputs arc.steps RunState.empty

/-- `_env` from `stagpy/__init__.py`: whether the environment variable is set
to the exact string "True".  The environment is passed as a lookup
function standing for `os.getenv`. -/
def _env (getenv : String → Option String) (var : String) : Bool :=
  getenv var == some "True"

/-- `DEBUG` from `stagpy/__init__.py`: the debug toggle. -/
def DEBUG (getenv : String → Option String) : Bool :=
  _env getenv "STAGPY_DEBUG"

/-- `_CONF_FILES` from `stagpy/__init__.py`: the configuration files read,
empty when configuration-file reading is skipped. -/
def _CONF_FILES (getenv : String → Option String)
    (config_file config_local : String) : List String :=
  if !_env getenv "STAGPY_NO_CONFIG" then [config_file, config_local] else []

/-- The archive of the spec's sparseness scenario: steps {0,1,2,5,9}
discovered, snapshots only on steps 2 and 9 (isnap 0 and 1), well-formed
field records. -/
def exampleArchive : Archive :=
  { steps := [0, 1, 2, 5, 9]
    snapIndex := { snaps := [(0, 2), (1, 9)] }
    timeData := fun _ => [("t", (3 : Rat)), ("Tmean", (2 : Rat))]
    fieldData := fun _ =>
      { header := { nxtot := 4, nytot := 1, nztot := 3, curv := .cartesianCS }
        components := 1
        payload := List.replicate 12 (0 : Rat) } }

/-- An archive whose snapshot 0 declares a payload of the wrong length
(5 instead of nxtot * nytot * nztot * components = 12). -/
def corruptArchive : Archive :=
  { steps := [0]
    snapIndex := { snaps := [(0, 0)] }
    timeData := fun _ => []
    fieldData := fun _ =>
      { header := { nxtot := 4, nytot := 1, nztot := 3, curv := .cartesianCS }
        components := 1
        payload := List.replicate 5 (0 : Rat) } }

/-! ## Helper lemmas -/

/-- A successful association-list lookup comes from a member pair. -/
lemma lookup_mem {β : Type} (k : String) (v : β) :
    ∀ l : List (String × β), l.lookup k = some v → (k, v) ∈ l := by
  intro l
  induction l with
  | nil => simp [List.lookup]
  | cons p rest ih =>
      rcases p with ⟨k', v'⟩
      intro h
      rw [List.lookup] at h
      by_cases hk : k == k'
      · rw [hk] at h
        cases h
        have : k = k' := by simpa using hk
        subst this
        exact List.mem_cons_self _ _
      · rw [Bool.not_eq_true] at hk
        rw [hk] at h
        exact List.mem_cons_of_mem _ (ih h)

/-- In a strictly ascending list, the head of the reverse (the last known
id) is a member and bounds every member. -/
lemma rev_head_max (l : List Nat) :
    l.Chain' (· < ·) → ∀ m, l.reverse[0]? = some m →
      m ∈ l ∧ ∀ i ∈ l, i ≤ m := by
  induction l with
  | nil => intro _ m h; simp at h
  | cons a rest ih =>
      intro hs m h
      rcases rest with _ | ⟨b, rest'⟩
      · simp at h
        subst h
        simp
      · have hab : a < b := (List.chain'_cons.mp hs).1
        have hrest : (b :: rest').Chain' (· < ·) := (List.chain'_cons.mp hs).2
        have h0 : 0 < ((b :: rest').reverse).length := by simp
        rw [List.reverse_cons, List.getElem?_append_left h0] at h
        obtain ⟨hm, hmax⟩ := ih hrest m h
        refine ⟨List.mem_cons_of_mem _ hm, ?_⟩
        intro i hi
        rcases List.mem_cons.mp hi with rfl | hi'
        · exact le_of_lt (lt_of_lt_of_le hab (hmax b (List.mem_cons_self _ _)))
        · exact hmax i hi'

/-! ## C6, C7, C8, C10 -/

/-- C6: for every value x (and any registry), `scale x "1"` returns the pair
(x, ""): a dimensionless quantity is unchanged, with an empty unit label. -/
theorem scale_dimensionless (scales : List (String × ScaleEntry)) (x : Rat) :
    scale scales x "1" = .ok (x, "") := by
  simp [scale]

/-- C7: the dimensionality tag is determined by which extents exceed one —
extents (64,1,32) classify as two-dimensional-XZ, (1,48,32) as
two-dimensional-YZ, (64,48,32) as three-dimensional — and the `info_cmd`
consumer displays nxtot x nztot for XZ, nytot x nztot for YZ, and all three
extents for 3D. -/
theorem geometry_classification :
    ((Geom.mk 64 1 32 .cartesianCS).dimTag = .twodXZ) ∧
    ((Geom.mk 1 48 32 .cartesianCS).dimTag = .twodYZ) ∧
    ((Geom.mk 64 48 32 .cartesianCS).dimTag = .threeD) ∧
    (∀ g : Geom, g.dimTag = .twodXZ →
       dimensionDisplay g = toString g.nxtot ++ " x " ++ toString g.nztot) ∧
    (∀ g : Geom, g.dimTag = .twodYZ →
       dimensionDisplay g = toString g.nytot ++ " x " ++ toString g.nztot) ∧
    (∀ g : Geom, g.dimTag = .threeD →
       dimensionDisplay g =
         toString g.nxtot ++ " x " ++ toString g.nytot ++ " x " ++
           toString g.nztot) := by
  refine ⟨by decide, by decide, by decide, ?_, ?_, ?_⟩ <;>
    · intro g h
      unfold Geom.dimTag at h
      unfold dimensionDisplay
      by_cases h3 : g.threed = true <;> by_cases hxz : g.twod_xz = true <;>
        simp_all

/-- C7 witness: the XZ display branch evaluated at extents (64,1,32). -/
theorem geometry_classification_witness :
    dimensionDisplay (Geom.mk 64 1 32 .cartesianCS) =
      toString (64 : Nat) ++ " x " ++ toString (32 : Nat) :=
  geometry_classification.2.2.2.1 (Geom.mk 64 1 32 .cartesianCS) (by decide)

/-- C8: exactly one of the coordinate-system predicates cartesian,
cylindrical, spherical holds for every geometry, and the `info_cmd` branch
order (cartesian, then cylindrical, else spherical) displays the name of the
actual tag. -/
theorem coord_tag_exclusive (g : Geom) :
    ((g.cartesian = true ∧ g.cylindrical = false ∧ g.spherical = false) ∨
     (g.cartesian = false ∧ g.cylindrical = true ∧ g.spherical = false) ∨
     (g.cartesian = false ∧ g.cylindrical = false ∧ g.spherical = true)) ∧
    coordDisplay g = coordName g.curv := by
  rcases g with ⟨nx, ny, nz, c⟩
  cases c <;>
    simp [Geom.cartesian, Geom.cylindrical, Geom.spherical, coordDisplay,
      coordName]

/-- C10: `_env` is true exactly when the environment variable is the exact
string "True" (case-sensitive); thus DEBUG and configuration-file skipping
are enabled for "True" and disabled for "true", "TRUE", "1" and unset. -/
theorem env_exact_match :
    (∀ (getenv : String → Option String) (var : String),
       _env getenv var = true ↔ getenv var = some "True") ∧
    (∀ getenv : String → Option String,
       DEBUG getenv = _env getenv "STAGPY_DEBUG") ∧
    (∀ (getenv : String → Option String) (cf cl : String),
       _CONF_FILES getenv cf cl = [] ↔
         getenv "STAGPY_NO_CONFIG" = some "True") ∧
    _env (fun _ => some "True") "STAGPY_DEBUG" = true ∧
    _env (fun _ => some "true") "STAGPY_DEBUG" = false ∧
    _env (fun _ => some "TRUE") "STAGPY_DEBUG" = false ∧
    _env (fun _ => some "1") "STAGPY_DEBUG" = false ∧
    _env (fun _ => none) "STAGPY_DEBUG" = false := by
  refine ⟨?_, fun _ => rfl, ?_, by decide, by decide, by decide, by decide,
    by decide⟩
  · intro getenv var
    simp [_env]
  · intro getenv cf cl
    unfold _CONF_FILES
    by_cases h : _env getenv "STAGPY_NO_CONFIG" = true
    · simp [h, (by simpa [_env] using h : getenv "STAGPY_NO_CONFIG" = some "True")]
    · simp only [Bool.not_eq_true] at h
      simp [h]
      intro hc
      simp [_env, hc] at h

/-! ## C3 -/

/-- C3: resolving "last" returns the greatest known id (with steps
{0,1,2,5,9}: last = 9, last-1 = 5); a relative selector that exceeds the
number of known steps fails with `SelectorOutOfRange`, an absent absolute id
fails with `IndexNotFound`, and `last_step`/`last_snapshot` equal resolution
of the "last" relative selector. -/
theorem resolve_relative_correct (steps : List Nat) (hne : steps ≠ [])
    (hsort : steps.Chain' (· < ·)) :
    (resolve [0, 1, 2, 5, 9] (.fromEnd 0) = .ok 9 ∧
     resolve [0, 1, 2, 5, 9] (.fromEnd 1) = .ok 5 ∧
     resolve [0, 1, 2, 5, 9] (.fromEnd 5) = .error .selectorOutOfRange ∧
     resolve [0, 1, 2, 5, 9] (.absolute 3) = .error (.indexNotFound 3)) ∧
    (∃ m, resolve steps (.fromEnd 0) = .ok m ∧ m ∈ steps ∧
       ∀ i ∈ steps, i ≤ m) ∧
    (∀ k, steps.length ≤ k →
       resolve steps (.fromEnd k) = .error .selectorOutOfRange) ∧
    (∀ arc : Archive,
       last_step arc = resolve arc.steps (.fromEnd 0) ∧
       last_snapshot arc =
         resolve (arc.snapIndex.snaps.map Prod.fst) (.fromEnd 0)) := by
  refine ⟨⟨rfl, rfl, rfl, rfl⟩, ?_, ?_, fun arc => ⟨rfl, rfl⟩⟩
  · have hlen : 0 < steps.reverse.length := by
      simpa [List.length_reverse] using List.length_pos.mpr hne
    have hget : steps.reverse[0]? = some steps.reverse[0] :=
      List.getElem?_eq_getElem hlen
    obtain ⟨hm, hmax⟩ := rev_head_max steps hsort _ hget
    exact ⟨_, by simp [resolve, hget], hm, hmax⟩
  · intro k hk
    have hnone : steps.reverse[k]? = none :=
      List.getElem?_eq_none (by simpa using hk)
    simp [resolve, hnone]

/-- C3 witness: the relative selectors evaluated on the concrete step index
{0,1,2,5,9}. -/
theorem resolve_relative_correct_witness :
    resolve [0, 1, 2, 5, 9] (.fromEnd 0) = .ok 9 ∧
    resolve [0, 1, 2, 5, 9] (.fromEnd 1) = .ok 5 ∧
    resolve [0, 1, 2, 5, 9] (.fromEnd 5) = .error .selectorOutOfRange ∧
    resolve [0, 1, 2, 5, 9] (.absolute 3) = .error (.indexNotFound 3) :=
  (resolve_relative_correct [0, 1, 2, 5, 9] (by decide) (by simp [List.chain'_cons])).1

/-! ## C2, C4, C5 -/

/-- A second `step()` fetch of the same resolved `istep` returns the result
and state of the first: it hits the cache. -/
lemma stepFetch_idem (arc : Archive) (st : RunState) (i : Nat) :
    stepFetch arc (stepFetch arc st i).2 i = stepFetch arc st i := by
  cases hl : st.stepCache.lookup i with
  | some r => simp [stepFetch, hl]
  | none => simp [stepFetch, hl, List.lookup]

/-- A second `snapshot()` fetch of the same resolved `isnap` after a
successful first fetch returns the same record without touching the state. -/
lemma snapFetch_idem (arc : Archive) (st : RunState) (i : Nat)
    (r : SnapshotRecord) (h : (snapFetch arc st i).1 = .ok r) :
    snapFetch arc (snapFetch arc st i).2 i = (.ok r, (snapFetch arc st i).2) := by
  cases hl : st.snapCache.lookup i with
  | some r0 =>
      simp only [snapFetch, hl] at h ⊢
      cases h
      rfl
  | none =>
      cases hs : step_of arc.snapIndex i with
      | error e => simp [snapFetch, hl, hs] at h
      | ok j =>
          cases hr : readFieldRecord i j (arc.fieldData i) with
          | error e => simp [snapFetch, hl, hs, hr] at h
          | ok r0 =>
              simp only [snapFetch, hl, hs, hr] at h ⊢
              cases h
              simp [List.lookup]

/-- C2: for every resolved id, fetching the same `istep` (resp. `isnap`)
twice returns the identical cached object both times, and the second call
performs no additional parse (the parse counter is unchanged). -/
theorem cache_idempotent (arc : Archive) (st : RunState) (istep isnap : Nat)
    (r : SnapshotRecord) (h : (snapFetch arc st isnap).1 = .ok r) :
    stepFetch arc (stepFetch arc st istep).2 istep =
      stepFetch arc st istep ∧
    (stepFetch arc (stepFetch arc st istep).2 istep).2.parseCount =
      (stepFetch arc st istep).2.parseCount ∧
    snapFetch arc (snapFetch arc st isnap).2 isnap =
      (.ok r, (snapFetch arc st isnap).2) ∧
    (snapFetch arc (snapFetch arc st isnap).2 isnap).2.parseCount =
      (snapFetch arc st isnap).2.parseCount := by
  refine ⟨stepFetch_idem arc st istep, ?_,
    snapFetch_idem arc st isnap r h, ?_⟩
  · rw [stepFetch_idem]
  · rw [snapFetch_idem arc st isnap r h]

/-- C2 witness: on the example archive from a fresh state, re-fetching step 0
reproduces the first fetch exactly. -/
theorem cache_idempotent_witness :
    stepFetch exampleArchive (stepFetch exampleArchive RunState.empty 0).2 0 =
      stepFetch exampleArchive RunState.empty 0 :=
  (cache_idempotent exampleArchive RunState.empty 0 0
    { isnap := 0, istep := 2,
      geom := { nxtot := 4, nytot := 1, nztot := 3, curv := .cartesianCS },
      fieldValues := List.replicate 12 0 } rfl).1

/-- C4: a record whose declared payload length differs from
nxtot * nytot * nztot * components is rejected by the Binary Record Reader
with `CorruptRecord`, and the failed fetch leaves the run state (cache and
parse counter) unchanged, so a later retry by the caller starts clean. -/
theorem corrupt_record_not_cached (arc : Archive) (st : RunState)
    (isnap istep : Nat)
    (hlen : (arc.fieldData isnap).payload.length ≠
      (arc.fieldData isnap).header.nxtot * (arc.fieldData isnap).header.nytot
        * (arc.fieldData isnap).header.nztot * (arc.fieldData isnap).components)
    (hmiss : st.snapCache.lookup isnap = none)
    (hidx : step_of arc.snapIndex isnap = .ok istep) :
    readFieldRecord isnap istep (arc.fieldData isnap) =
      .error .corruptRecord ∧
    snapFetch arc st isnap = (.error .corruptRecord, st) := by
  have hread : readFieldRecord isnap istep (arc.fieldData isnap) =
      .error .corruptRecord := by
    simp [readFieldRecord, hlen]
  exact ⟨hread, by simp [snapFetch, hmiss, hidx, hread]⟩

/-- C4 witness: fetching the corrupt snapshot 0 of `corruptArchive` from a
fresh state fails with `CorruptRecord` and leaves the state unchanged. -/
theorem corrupt_record_not_cached_witness :
    snapFetch corruptArchive RunState.empty 0 =
      (.error .corruptRecord, RunState.empty) :=
  (corrupt_record_not_cached corruptArchive RunState.empty 0 0 (by decide)
    rfl rfl).2

/-- C5: for a unit symbol other than "1", an unregistered symbol makes
`scale` fail with `UnknownDimension` rather than pass the value through,
while a registered symbol yields exactly x * factor together with its label,
non-empty whenever the registry carries non-empty labels. -/
theorem scale_unknown_dimension (scales : List (String × ScaleEntry))
    (x : Rat) (symbol : String) (hne : symbol ≠ "1") :
    (scales.lookup symbol = none →
       scale scales x symbol = .error (.unknownDimension symbol)) ∧
    (∀ e, scales.lookup symbol = some e →
       scale scales x symbol = .ok (x * e.factor, e.label)) ∧
    ((∀ p ∈ scales, p.2.label ≠ "") →
       ∀ e, scales.lookup symbol = some e →
         scale scales x symbol = .ok (x * e.factor, e.label) ∧
           e.label ≠ "") := by
  refine ⟨?_, ?_, ?_⟩
  · intro h
    simp [scale, hne, h]
  · intro e h
    simp [scale, hne, h]
  · intro hlab e h
    exact ⟨by simp [scale, hne, h], hlab (symbol, e) (lookup_mem symbol e scales h)⟩

/-- C5 witness: with the registry mapping "s" to factor 2 and label
"seconds", scaling 3 by "s" gives 6 "seconds", and "W" is rejected. -/
theorem scale_unknown_dimension_witness :
    scale [("s", ScaleEntry.mk 2 "seconds")] 3 "s" = .ok (3 * 2, "seconds") ∧
    scale [("s", ScaleEntry.mk 2 "seconds")] 3 "W" =
      .error (.unknownDimension "W") :=
  ⟨(scale_unknown_dimension [("s", ScaleEntry.mk 2 "seconds")]
      3 "s" (by decide)).2.1 (ScaleEntry.mk 2 "seconds") rfl,
   (scale_unknown_dimension [("s", ScaleEntry.mk 2 "seconds")] 3 "W"
      (by decide)).1 rfl⟩

/-! ## C1, C9 -/

/-- The cache-fill path of `step()` only ever stores faithfully parsed
records: it preserves the invariant that every cached entry equals the
parse of its own `istep`. -/
lemma stepFetch_cache_faithful (arc : Archive) (st : RunState) (j : Nat)
    (hinv : ∀ i r, st.stepCache.lookup i = some r → r = parseStep arc i) :
    ∀ i r, (stepFetch arc st j).2.stepCache.lookup i = some r →
      r = parseStep arc i := by
  intro i r h
  cases hl : st.stepCache.lookup j with
  | some r0 =>
      simp only [stepFetch, hl] at h
      exact hinv i r h
  | none =>
      simp only [stepFetch, hl] at h
      rw [List.lookup] at h
      by_cases hij : (i == j) = true
      · rw [hij] at h
        cases h
        rw [eq_of_beq hij]
      · rw [Bool.not_eq_true] at hij
        rw [hij] at h
        exact hinv i r h

/-- The `info_cmd` walk preserves the cache-faithfulness invariant: the
scaling loop works on a copy of each row and never writes back to the
cache. -/
lemma infoWalkGo_cache_faithful (arc : Archive) (time : List (String × String))
    (scales : List (String × ScaleEntry)) (outputs : List String) :
    ∀ (l : List Nat) (st : RunState),
      (∀ i r, st.stepCache.lookup i = some r → r = parseStep arc i) →
      ∀ i r,
        (infoWalkGo arc time scales outputs l st).2.stepCache.lookup i =
            some r →
          r = parseStep arc i := by
  intro l
  induction l with
  | nil =>
      intro st hinv i r h
      exact hinv i r h
  | cons j rest ih =>
      intro st hinv i r h
      simp only [infoWalkGo] at h
      cases hsc : scaleSeries time scales
          (locRow (stepFetch arc st j).1.timeinfo outputs) with
      | error e =>
          rw [hsc] at h
          exact stepFetch_cache_faithful arc st j hinv i r h
      | ok series =>
          rw [hsc] at h
          exact ih (stepFetch arc st j).2
            (stepFetch_cache_faithful arc st j hinv) i r h

/-- C9: `info_cmd` scales a copy of each time-series row, so after it runs
every cached `StepRecord` — in particular its `timeinfo` row — is exactly the
parsed record of its step, unmodified by the dimensional scaling. -/
theorem info_cmd_no_mutation (arc : Archive) (time : List (String × String))
    (scales : List (String × ScaleEntry)) (outputs : List String)
    (i : Nat) (r : StepRecord)
    (h : (info_cmd arc time scales outputs).2.stepCache.lookup i = some r) :
    r = parseStep arc i ∧ r.timeinfo = (parseStep arc i).timeinfo := by
  simp only [info_cmd] at h
  have hr := infoWalkGo_cache_faithful arc time scales outputs arc.steps
    RunState.empty (fun i r h => by simp [RunState.empty, List.lookup] at h)
    i r h
  exact ⟨hr, by rw [hr]⟩

/-- C9 witness: after `info_cmd` over the example archive with a requested
"t" output, the record cached for step 0 is still the parsed one. -/
theorem info_cmd_no_mutation_witness :
    ({ istep := 0, isnap := none,
       timeinfo := [("t", (3 : Rat)), ("Tmean", (2 : Rat))] } : StepRecord) =
      parseStep exampleArchive 0 :=
  (info_cmd_no_mutation exampleArchive [("t", "1")] [] ["t"] 0
    { istep := 0, isnap := none,
      timeinfo := [("t", (3 : Rat)), ("Tmean", (2 : Rat))] } rfl).1

/-- C1: `walk` yields exactly one entry per known `istep` in ascending
order, finite, with the `isnap` annotation present exactly on the steps
having a snapshot; on the concrete archive with steps {0,1,2,5,9} and
snapshots on {2,9} it yields 5 entries, `snapshot_of` is none on 0 and 1 and
the correct isnap (0, owning step 2) on step 2. -/
theorem walk_sparse (arc : Archive) (hsort : arc.steps.Chain' (· < ·)) :
    ((walk arc).map StepRecord.istep = arc.steps) ∧
    ((walk arc).length = arc.steps.length) ∧
    ((walk arc).Chain' (fun a b => a.istep < b.istep)) ∧
    (∀ r ∈ walk arc, r.isnap = snapshot_of arc.snapIndex r.istep) ∧
    (∀ r ∈ walk arc,
       r.isnap.isSome ↔ ∃ p ∈ arc.snapIndex.snaps, p.2 = r.istep) ∧
    ((walk exampleArchive).map StepRecord.istep = [0, 1, 2, 5, 9] ∧
     (walk exampleArchive).map StepRecord.isnap =
       [none, none, some 0, none, some 1] ∧
     snapshot_of exampleArchive.snapIndex 0 = none ∧
     snapshot_of exampleArchive.snapIndex 1 = none ∧
     snapshot_of exampleArchive.snapIndex 2 = some 0 ∧
     step_of exampleArchive.snapIndex 0 = .ok 2) := by
  refine ⟨?_, by simp [walk], ?_, ?_, ?_,
    by decide, by decide, by decide, by decide, by decide, rfl⟩
  · rw [walk, List.map_map]
    exact List.map_id arc.steps
  · rw [walk, List.chain'_map]
    exact hsort
  · intro r hr
    obtain ⟨i, hi, rfl⟩ := List.mem_map.mp hr
    rfl
  · intro r hr
    obtain ⟨i, hi, rfl⟩ := List.mem_map.mp hr
    simp [parseStep, snapshot_of, List.find?_isSome]

/-- C1 witness: the walk of the concrete sparse archive visits exactly its
known steps. -/
theorem walk_sparse_witness :
    (walk exampleArchive).map StepRecord.istep = exampleArchive.steps :=
  (walk_sparse exampleArchive (by simp [exampleArchive, List.chain'_cons])).1

end StagPy
